import Mathlib

/-!
Shallow embedding of the retrieval-augmented-generation core of the
repository (app/services/chat_service.py, app/services/milvus_service.py).

Python dictionaries with optional keys are modelled as structures with
`Option` fields; `dict.get(key, default)` becomes `Option.getD`.
Similarity scores are modelled as rationals (`ℚ`): the Python code uses
floats, but every property at stake (threshold comparison, ordering,
maximum, arithmetic mean) is about exact arithmetic on the score values.
External network calls (OpenAI embedding / completion, pymilvus client
calls) are opaque effects; they are passed in as function parameters
returning `Except String α`, where `.error e` models the call raising an
exception whose message is `e`.
-/

namespace RagPipeline

/-- A search hit as assembled by `MilvusService.search_similar` and consumed
by `ChatService.process_message`: a Python dict with keys `id`, `content`,
`metadata`, `score`.  `process_message` reads only `id`, `content`, `score`,
each via `dict.get` with a default, so missing keys are `none`. -/
structure Hit where
  id : Option String
  content : Option String
  score : Option ℚ
deriving Repr, DecidableEq

/-- `SIMILARITY_THRESHOLD = 0.3` from `ChatService.process_message`. -/
def SIMILARITY_THRESHOLD : ℚ := 3 / 10

/-- The relevance filter loop of `process_message` (lines 26-32):
keep exactly the docs with `doc.get("score", 0) >= SIMILARITY_THRESHOLD`,
in their original order. -/
def filteredDocs (similar_docs : List Hit) : List Hit :=
  similar_docs.filter (fun doc => SIMILARITY_THRESHOLD ≤ doc.score.getD 0)

/-- `ChatService._build_context`: returns `""` for an empty list, otherwise
collects each doc's `content` (default `""`), keeps only the truthy
(non-empty) ones, and joins them with a blank line. -/
def build_context (documents : List Hit) : String :=
  if documents = [] then ""
  else
    String.intercalate "\n\n"
      ((documents.map (fun doc => doc.content.getD "")).filter (fun c => c ≠ ""))

/-- The spec's words for the context (§4.4 step 4 as read by the claim):
"concatenating the `content` field of each hit in `filtered`, in order,
joined by a blank line separator" — with no skipping of empty contents.
Declared only to be compared with `build_context`. -/
def contextOfSpec (documents : List Hit) : String :=
  String.intercalate "\n\n" (documents.map (fun doc => doc.content.getD ""))

/-- The `sources` assembly loop of `process_message` (lines 65-68): the
`id` (default `""`) of each filtered doc, skipping falsy (empty) ids. -/
def sourcesOf (filtered_docs : List Hit) : List String :=
  (filtered_docs.map (fun doc => doc.id.getD "")).filter (fun s => s ≠ "")

/-- Python `max` over a list (used only on non-empty lists by the code;
on `[]` Python raises, we return `0`, a case the code guards against). -/
def pyMax : List ℚ → ℚ
  | [] => 0
  | x :: xs => xs.foldl max x

/-- `highest_score` of the metadata: `max(scores) if filtered_docs else 0`. -/
def highestScore (filtered_docs : List Hit) : ℚ :=
  if filtered_docs = [] then 0
  else pyMax (filtered_docs.map (fun doc => doc.score.getD 0))

/-- `avg_score` of the metadata: `sum(scores)/len(filtered_docs) if filtered_docs else 0`. -/
def avgScore (filtered_docs : List Hit) : ℚ :=
  if filtered_docs = [] then 0
  else (filtered_docs.map (fun doc => doc.score.getD 0)).sum / filtered_docs.length

/-- The `search_metadata` dict of `process_message`; the `reason` key is
present only on the no-documents and error paths, hence `Option`. -/
structure SearchMetadata where
  documents_found : Nat
  total_documents_searched : Nat
  highest_score : ℚ
  avg_score : ℚ
  search_successful : Bool
  similarity_threshold : ℚ
  reason : Option String
deriving Repr, DecidableEq

/-- The dict returned by `process_message`. -/
structure ProcessResult where
  response : String
  conversation_id : Option String
  sources : List String
  search_metadata : SearchMetadata
deriving Repr, DecidableEq

/-- The fixed apology string of the `except` branch of `process_message`. -/
def apologyMessage : String :=
  "I apologize, but I encountered an error processing your request. Please try again."

/-- The `reason` string set when no document met the threshold
(`f"No documents met similarity threshold ({SIMILARITY_THRESHOLD})"`,
with `0.3` interpolated). -/
def noDocsReason : String := "No documents met similarity threshold (0.3)"

/-- The dict returned by the `except` branch of `process_message`, for an
exception with message `e`. -/
def errorResult (conversation_id : Option String) (e : String) : ProcessResult :=
  { response := apologyMessage
    conversation_id := conversation_id
    sources := []
    search_metadata :=
      { documents_found := 0
        total_documents_searched := 0
        highest_score := 0
        avg_score := 0
        search_successful := false
        similarity_threshold := SIMILARITY_THRESHOLD
        reason := some ("Error: " ++ e) } }

/-- `ChatService.process_message`.  `embed` models
`openai_service.get_embedding`, `search` models
`milvus_service.search_similar` (called with `limit=3`), `complete` models
`openai_service.get_chat_completion` applied to the singleton user-message
list and the context string.  Any `.error` from these effects is the
exception caught by the surrounding `try`, producing `errorResult`. -/
def process_message (embed : String → Except String (List ℚ))
    (search : List ℚ → Nat → Except String (List Hit))
    (complete : String → String → Except String String)
    (message : String) (conversation_id : Option String) : ProcessResult :=
  match embed message with
  | .error e => errorResult conversation_id e
  | .ok query_embedding =>
    match search query_embedding 3 with
    | .error e => errorResult conversation_id e
    | .ok similar_docs =>
      let filtered_docs := filteredDocs similar_docs
      let context := build_context filtered_docs
      match complete message context with
      | .error e => errorResult conversation_id e
      | .ok response =>
        { response := response
          conversation_id := conversation_id
          sources := sourcesOf filtered_docs
          search_metadata :=
            { documents_found := filtered_docs.length
              total_documents_searched := similar_docs.length
              highest_score := highestScore filtered_docs
              avg_score := avgScore filtered_docs
              search_successful := !filtered_docs.isEmpty
              similarity_threshold := SIMILARITY_THRESHOLD
              reason := if filtered_docs.isEmpty then some noDocsReason else none } }

/-!
Embedding of `MilvusService.search_similar` and
`MilvusService.create_collection`.  The pymilvus client calls are opaque
effects, so a call's outcome is a parameter: `loadResult` models
`Collection(name)` / `collection.load()` (outside the `try`, so an
exception there propagates), `searchResult` models `collection.search`
plus the hit-dict assembly inside the `try` (an exception there is caught
and turned into `[]`).
-/

/-- The state `search_similar` consults, and the outcomes of the two
pymilvus call sites it performs. -/
structure SearchEnv where
  connected : Bool
  hasCollection : Bool
  loadResult : Except String Unit
  searchResult : Except String (List Hit)

/-- `MilvusService.search_similar`: early `[]` when not connected or the
collection is missing; `collection.load()` failures propagate; failures of
the actual search are caught and produce `[]`. -/
def search_similar (env : SearchEnv) : Except String (List Hit) :=
  if !env.connected then .ok []
  else if !env.hasCollection then .ok []
  else
    match env.loadResult with
    | .error e => .error e
    | .ok _ =>
      match env.searchResult with
      | .error _ => .ok []
      | .ok hits => .ok hits

/-- The store state `create_collection` reads and writes: whether the
client is connected and, when the named collection exists, its vector
dimension (schema). -/
structure CollectionState where
  connected : Bool
  schemaDim : Option Nat
deriving Repr, DecidableEq

/-- `MilvusService.create_collection`: early return when not connected;
early return when `utility.has_collection` already holds (leaving the
existing schema untouched); otherwise creates the collection with the
requested dimension and its index. -/
def create_collection (st : CollectionState) (dim : Nat) : CollectionState :=
  if !st.connected then st
  else
    match st.schemaDim with
    | some _ => st
    | none => { st with schemaDim := some dim }

/-!
Embedding of `ChatService.ingest_documents` and
`MilvusService.insert_documents`.  Python mutates the caller's dicts in
place, so the model threads the document list through and returns its
final state.  `json.dumps` is an opaque pure serializer, passed in as
`dumps`.
-/

/-- A value stored under a document's `metadata` key: the dict form the
caller supplies, or the JSON string form `ingest_documents` rewrites it
to.  Metadata dicts are modelled as string-to-string association lists;
their keys/values are opaque to the code. -/
inductive MetaValue where
  | obj : List (String × String) → MetaValue
  | str : String → MetaValue
deriving Repr, DecidableEq

/-- Python truthiness of a metadata value (`if ... and doc["metadata"]`). -/
def MetaValue.truthy : MetaValue → Bool
  | .obj l => !l.isEmpty
  | .str s => s ≠ ""

/-- A document dict as passed to `ingest_documents`. -/
structure Doc where
  id : Option String
  content : Option String
  metadata : Option MetaValue
  embedding : Option (List ℚ)
deriving Repr, DecidableEq

/-- One iteration of the embedding loop of `ingest_documents` (lines
117-124) on a single document: skip when `doc.get("content", "")` is
falsy; otherwise call the embedding provider (whose failure propagates,
leaving this document unmutated), set `doc["embedding"]`, and JSON-dump a
present truthy `metadata`. -/
def embedDoc (embed : String → Except String (List ℚ)) (dumps : MetaValue → String)
    (doc : Doc) : Except String Doc :=
  let content := doc.content.getD ""
  if content = "" then .ok doc
  else
    match embed content with
    | .error e => .error e
    | .ok emb =>
      let doc1 := { doc with embedding := some emb }
      match doc1.metadata with
      | some m => if m.truthy then .ok { doc1 with metadata := some (.str (dumps m)) } else .ok doc1
      | none => .ok doc1

/-- The whole embedding loop: documents are processed in order; the first
failing embed call aborts the loop, leaving that document and all later
ones unmutated.  Returns the error, if any, and the final state of the
caller's list. -/
def embedAll (embed : String → Except String (List ℚ)) (dumps : MetaValue → String) :
    List Doc → Option String × List Doc
  | [] => (none, [])
  | d :: ds =>
    match embedDoc embed dumps d with
    | .error e => (some e, d :: ds)
    | .ok d1 =>
      let rest := embedAll embed dumps ds
      (rest.1, d1 :: rest.2)

/-- The pure per-document mutation `ingest_documents` applies when the
embedding call cannot fail (`embed = fun s => .ok (f s)`); used to state
what the in-place mutation does. -/
def mutateDoc (f : String → List ℚ) (dumps : MetaValue → String) (doc : Doc) : Doc :=
  let content := doc.content.getD ""
  if content = "" then doc
  else
    let doc1 := { doc with embedding := some (f content) }
    match doc1.metadata with
    | some m => if m.truthy then { doc1 with metadata := some (.str (dumps m)) } else doc1
    | none => doc1

/-- `MilvusService.insert_documents`: when not connected it logs a warning
and RETURNS NORMALLY without inserting; otherwise `collection.load()`
(`loadResult`) may raise, and `collection.insert` / `flush`
(`storeInsert`) may raise (re-raised by the `except` clause).  The `Bool`
of the `.ok` outcome records whether the store actually performed the
insert. -/
def insert_documents (connected : Bool) (loadResult : Except String Unit)
    (storeInsert : Except String Unit) : Except String Bool :=
  if !connected then .ok false
  else
    match loadResult with
    | .error e => .error e
    | .ok _ =>
      match storeInsert with
      | .error e => .error e
      | .ok _ => .ok true

/-- What a call to `ingest_documents` leaves behind: the boolean it
returns, whether the store actually inserted the batch, and the final
state of the caller's document list. -/
structure IngestOutcome where
  success : Bool
  inserted : Bool
  docs : List Doc
deriving Repr, DecidableEq

/-- `ChatService.ingest_documents`: run the embedding loop (mutating the
caller's documents in place), then `insert_documents`; any exception is
caught and turns the result into `False`, but the mutations already made
persist. -/
def ingest_documents (embed : String → Except String (List ℚ)) (dumps : MetaValue → String)
    (connected : Bool) (loadResult storeInsert : Except String Unit)
    (documents : List Doc) : IngestOutcome :=
  match embedAll embed dumps documents with
  | (some _, docs1) => { success := false, inserted := false, docs := docs1 }
  | (none, docs1) =>
    match insert_documents connected loadResult storeInsert with
    | .error _ => { success := false, inserted := false, docs := docs1 }
    | .ok ins => { success := true, inserted := ins, docs := docs1 }

/-!
Concrete fixtures for scenario checks and witnesses.
-/

/-- Scenario hit `{id: "a", score: 0.5}`. -/
def hitA : Hit := { id := some "a", content := some "Alpha", score := some (1 / 2) }

/-- Scenario hit `{id: "b", score: 0.2}`. -/
def hitB : Hit := { id := some "b", content := some "Beta", score := some (1 / 5) }

/-- Scenario hit `{id: "c", score: 0.35}`. -/
def hitC : Hit := { id := some "c", content := some "Gamma", score := some (7 / 20) }

/-!
Helper lemmas shared by the claim theorems.
-/

/-- Evaluation of `process_message` on the success path: all three external
calls succeed. -/
theorem process_message_success_eq (embed : String → Except String (List ℚ))
    (search : List ℚ → Nat → Except String (List Hit))
    (complete : String → String → Except String String)
    (message : String) (conversation_id : Option String)
    (qe : List ℚ) (hits : List Hit) (ans : String)
    (h1 : embed message = .ok qe) (h2 : search qe 3 = .ok hits)
    (h3 : complete message (build_context (filteredDocs hits)) = .ok ans) :
    process_message embed search complete message conversation_id =
      { response := ans
        conversation_id := conversation_id
        sources := sourcesOf (filteredDocs hits)
        search_metadata :=
          { documents_found := (filteredDocs hits).length
            total_documents_searched := hits.length
            highest_score := highestScore (filteredDocs hits)
            avg_score := avgScore (filteredDocs hits)
            search_successful := !(filteredDocs hits).isEmpty
            similarity_threshold := SIMILARITY_THRESHOLD
            reason := if (filteredDocs hits).isEmpty then some noDocsReason else none } } := by
  simp only [process_message, h1, h2, h3]

/-- Evaluation of `process_message` when the embedding call raises. -/
theorem process_message_embed_error (embed : String → Except String (List ℚ))
    (search : List ℚ → Nat → Except String (List Hit))
    (complete : String → String → Except String String)
    (message : String) (conversation_id : Option String) (e : String)
    (h1 : embed message = .error e) :
    process_message embed search complete message conversation_id =
      errorResult conversation_id e := by
  unfold process_message
  rw [h1]

/-- Evaluation of `process_message` when the completion call raises. -/
theorem process_message_complete_error (embed : String → Except String (List ℚ))
    (search : List ℚ → Nat → Except String (List Hit))
    (complete : String → String → Except String String)
    (message : String) (conversation_id : Option String)
    (qe : List ℚ) (hits : List Hit) (e : String)
    (h1 : embed message = .ok qe) (h2 : search qe 3 = .ok hits)
    (h3 : complete message (build_context (filteredDocs hits)) = .error e) :
    process_message embed search complete message conversation_id =
      errorResult conversation_id e := by
  simp only [process_message, h1, h2, h3]

/-- A left fold of `max` lands on one of the starting value or the list
elements. -/
theorem foldl_max_mem : ∀ (ys : List ℚ) (a : ℚ), ys.foldl max a ∈ a :: ys := by
  intro ys
  induction ys with
  | nil => intro a; simp
  | cons y ys ih =>
    intro a
    rw [List.foldl_cons]
    rcases List.mem_cons.mp (ih (max a y)) with h | h
    · rcases max_choice a y with hm | hm
      · rw [h, hm]; exact List.mem_cons_self a _
      · rw [h, hm]; exact List.mem_cons_of_mem a (List.mem_cons_self y ys)
    · exact List.mem_cons_of_mem a (List.mem_cons_of_mem y h)

/-- A left fold of `max` bounds the starting value and every element. -/
theorem le_foldl_max : ∀ (ys : List ℚ) (a : ℚ), ∀ y ∈ a :: ys, y ≤ ys.foldl max a := by
  intro ys
  induction ys with
  | nil =>
    intro a y hy
    rw [List.mem_singleton] at hy
    simp [hy]
  | cons z zs ih =>
    intro a y hy
    rw [List.foldl_cons]
    have hbase : max a z ≤ zs.foldl max (max a z) :=
      ih (max a z) (max a z) (List.mem_cons_self _ _)
    rcases List.mem_cons.mp hy with h | h
    · rw [h]; exact le_trans (le_max_left a z) hbase
    · rcases List.mem_cons.mp h with h | h
      · rw [h]; exact le_trans (le_max_right a z) hbase
      · exact ih (max a z) y (List.mem_cons_of_mem _ h)

/-- `pyMax` of a non-empty list is an element of it. -/
theorem pyMax_mem (x : ℚ) (xs : List ℚ) : pyMax (x :: xs) ∈ x :: xs :=
  foldl_max_mem xs x

/-- Every element of a non-empty list is at most its `pyMax`. -/
theorem le_pyMax (x : ℚ) (xs : List ℚ) : ∀ y ∈ x :: xs, y ≤ pyMax (x :: xs) :=
  le_foldl_max xs x

/-- The scenario's filtered sequence, precomputed for reuse in proofs. -/
theorem filteredDocs_scenario : filteredDocs [hitA, hitB, hitC] = [hitA, hitC] := by
  norm_num [filteredDocs, hitA, hitB, hitC, SIMILARITY_THRESHOLD]

/-- Scenario evaluation of `sourcesOf`. -/
theorem sourcesOf_scenario : sourcesOf (filteredDocs [hitA, hitB, hitC]) = ["a", "c"] := by
  rw [filteredDocs_scenario]; simp [sourcesOf, hitA, hitC]

/-- Scenario evaluation of `highestScore`. -/
theorem highestScore_scenario : highestScore (filteredDocs [hitA, hitB, hitC]) = 1 / 2 := by
  rw [filteredDocs_scenario]; norm_num [highestScore, pyMax, hitA, hitC, List.cons_ne_nil]

/-- Scenario evaluation of `avgScore`: the mean over the two filtered
scores only, `(0.5 + 0.35) / 2 = 0.425`. -/
theorem avgScore_scenario : avgScore (filteredDocs [hitA, hitB, hitC]) = 17 / 40 := by
  rw [filteredDocs_scenario]; norm_num [avgScore, hitA, hitC, List.cons_ne_nil]

/-- Scenario evaluation of `build_context`. -/
theorem build_context_scenario : build_context (filteredDocs [hitA, hitB, hitC]) = "Alpha\n\nGamma" := by
  rw [filteredDocs_scenario]; simp [build_context, hitA, hitC]; decide

/-- An embedding provider that succeeds with the empty vector; used as a
concrete effect in witnesses. -/
def okEmbed : String → Except String (List ℚ) := fun _ => .ok []

/-- A vector store returning the spec scenario's three hits. -/
def scenarioSearch : List ℚ → Nat → Except String (List Hit) := fun _ _ => .ok [hitA, hitB, hitC]

/-- A completion provider that succeeds with a fixed answer. -/
def okComplete : String → String → Except String String := fun _ _ => .ok "ans"

/-- Dropping the hits whose `score` key is missing does not change the
outcome of the relevance filter. -/
theorem filteredDocs_filter_isSome (hits : List Hit) :
    filteredDocs (hits.filter (fun h => h.score.isSome)) = filteredDocs hits := by
  unfold filteredDocs
  induction hits with
  | nil => rfl
  | cons h t ih =>
    cases hs : h.score with
    | none =>
      have hq : List.filter (fun x => x.score.isSome) (h :: t)
          = List.filter (fun x => x.score.isSome) t := by
        simp [List.filter_cons, hs]
      have hlow : ¬ (SIMILARITY_THRESHOLD ≤ h.score.getD 0) := by
        rw [hs]
        norm_num [SIMILARITY_THRESHOLD]
      have hp : List.filter (fun doc => decide (SIMILARITY_THRESHOLD ≤ doc.score.getD 0)) (h :: t)
          = List.filter (fun doc => decide (SIMILARITY_THRESHOLD ≤ doc.score.getD 0)) t := by
        rw [List.filter_cons, if_neg (by simpa using hlow)]
      rw [hq, hp]
      exact ih
    | some s =>
      have hq : List.filter (fun x => x.score.isSome) (h :: t)
          = h :: List.filter (fun x => x.score.isSome) t := by
        simp [List.filter_cons, hs]
      rw [hq, List.filter_cons, List.filter_cons]
      by_cases hp : SIMILARITY_THRESHOLD ≤ h.score.getD 0
      · rw [if_pos (decide_eq_true hp), if_pos (decide_eq_true hp), ih]
      · rw [if_neg (by simpa using hp), if_neg (by simpa using hp)]
        exact ih

/-- C2: on the `answer` path every provider exception is caught:
when the embedding call or the completion call raises with message `e`,
`process_message` returns (it is a total function, nothing propagates) the
fixed apology string, empty `sources`, `search_successful = false`, and a
`reason` containing `e`. -/
theorem C2_answer_fail_soft (embed : String → Except String (List ℚ))
    (search : List ℚ → Nat → Except String (List Hit))
    (complete : String → String → Except String String)
    (message : String) (conversation_id : Option String) (e : String)
    (h : embed message = .error e ∨
      ∃ qe hits, embed message = .ok qe ∧ search qe 3 = .ok hits ∧
        complete message (build_context (filteredDocs hits)) = .error e) :
    (process_message embed search complete message conversation_id).response = apologyMessage ∧
    (process_message embed search complete message conversation_id).sources = [] ∧
    (process_message embed search complete message conversation_id).search_metadata.search_successful
      = false ∧
    ∃ a b, (process_message embed search complete message conversation_id).search_metadata.reason
      = some (a ++ e ++ b) := by
  have herr : process_message embed search complete message conversation_id
      = errorResult conversation_id e := by
    rcases h with h | ⟨qe, hits, h1, h2, h3⟩
    · exact process_message_embed_error _ _ _ _ _ _ h
    · exact process_message_complete_error _ _ _ _ _ _ _ _ h1 h2 h3
  rw [herr]
  refine ⟨rfl, rfl, rfl, "Error: ", "", ?hre⟩
  rw [String.append_empty]
  rfl

/-- C2 witness: a concrete embedding failure, fed through the theorem. -/
theorem C2_answer_fail_soft_witness :
    (process_message (fun _ => .error "boom") (fun _ _ => .ok []) (fun _ _ => .ok "hi")
        "q" none).response = apologyMessage ∧
    (process_message (fun _ => .error "boom") (fun _ _ => .ok []) (fun _ _ => .ok "hi")
        "q" none).sources = [] ∧
    (process_message (fun _ => .error "boom") (fun _ _ => .ok []) (fun _ _ => .ok "hi")
        "q" none).search_metadata.search_successful = false ∧
    ∃ a b, (process_message (fun _ => .error "boom") (fun _ _ => .ok []) (fun _ _ => .ok "hi")
        "q" none).search_metadata.reason = some (a ++ "boom" ++ b) :=
  C2_answer_fail_soft _ _ _ "q" none "boom" (Or.inl rfl)

/-- C3: when no raw hit survives the filter (in particular when the search
returns zero hits), `process_message` still calls the completion provider
with the empty context string and returns its completion; the metadata has
`search_successful = false`, empty `sources`, and a `reason` mentioning the
threshold value `0.3`. -/
theorem C3_zero_hits (embed : String → Except String (List ℚ))
    (search : List ℚ → Nat → Except String (List Hit))
    (complete : String → String → Except String String)
    (message : String) (conversation_id : Option String)
    (qe : List ℚ) (hits : List Hit) (ans : String)
    (h1 : embed message = .ok qe) (h2 : search qe 3 = .ok hits)
    (h3 : filteredDocs hits = [])
    (h4 : complete message "" = .ok ans) :
    (process_message embed search complete message conversation_id).response = ans ∧
    (process_message embed search complete message conversation_id).sources = [] ∧
    (process_message embed search complete message conversation_id).search_metadata.search_successful
      = false ∧
    build_context (filteredDocs hits) = "" ∧
    ∃ a b, (process_message embed search complete message conversation_id).search_metadata.reason
      = some (a ++ "0.3" ++ b) := by
  have hctx : build_context (filteredDocs hits) = "" := by rw [h3]; rfl
  have h4x : complete message (build_context (filteredDocs hits)) = .ok ans := by
    rw [hctx]; exact h4
  rw [process_message_success_eq embed search complete message conversation_id qe hits ans
    h1 h2 h4x]
  refine ⟨rfl, ?hsrc, ?hsucc, hctx, "No documents met similarity threshold (", ")", ?hre⟩
  · show sourcesOf (filteredDocs hits) = []
    rw [h3]; rfl
  · show (!(filteredDocs hits).isEmpty) = false
    rw [h3]; rfl
  · show (if (filteredDocs hits).isEmpty then some noDocsReason else none) = _
    rw [h3]
    rfl

/-- C3 witness: the search returns zero hits, the completion returns
"ungrounded", and the claim's conclusions hold concretely. -/
theorem C3_zero_hits_witness :
    (process_message (fun _ => .ok []) (fun _ _ => .ok []) (fun _ _ => .ok "ungrounded")
        "q" none).response = "ungrounded" ∧
    (process_message (fun _ => .ok []) (fun _ _ => .ok []) (fun _ _ => .ok "ungrounded")
        "q" none).sources = [] ∧
    (process_message (fun _ => .ok []) (fun _ _ => .ok []) (fun _ _ => .ok "ungrounded")
        "q" none).search_metadata.search_successful = false ∧
    build_context (filteredDocs []) = "" ∧
    ∃ a b, (process_message (fun _ => .ok []) (fun _ _ => .ok []) (fun _ _ => .ok "ungrounded")
        "q" none).search_metadata.reason = some (a ++ "0.3" ++ b) :=
  C3_zero_hits _ _ _ "q" none [] [] "ungrounded" rfl rfl rfl rfl

/-- C6: `search_similar` returns `.ok []` (not an error) when the client is
not connected or the collection does not exist, swallows failures of the
actual search call into `.ok []`, and the only way it can raise is that the
`collection.load()` transport call raised. -/
theorem C6_search_soft (env : SearchEnv) :
    (env.connected = false → search_similar env = .ok []) ∧
    (env.hasCollection = false → search_similar env = .ok []) ∧
    (∀ e, env.searchResult = .error e → env.loadResult = .ok () →
      search_similar env = .ok []) ∧
    (∀ e, search_similar env = .error e →
      env.loadResult = .error e ∧ env.connected = true ∧ env.hasCollection = true) := by
  obtain ⟨c, hcol, lr, sr⟩ := env
  refine ⟨?hconn, ?hcoll, ?hsoft, ?honly⟩
  · intro hc
    subst hc
    rfl
  · intro hc
    subst hc
    cases c <;> rfl
  · intro e hsr hlr
    subst hsr
    subst hlr
    cases c <;> cases hcol <;> rfl
  · intro e he
    cases c with
    | false => simp [search_similar] at he
    | true =>
      cases hcol with
      | false => simp [search_similar] at he
      | true =>
        cases lr with
        | error le =>
          have hle : le = e := by simpa [search_similar] using he
          exact ⟨by rw [hle], rfl, rfl⟩
        | ok u =>
          cases sr with
          | error se => simp [search_similar] at he
          | ok hlist => simp [search_similar] at he

/-- C6 witness: concrete disconnected, missing-collection, and
search-failure environments, each fed through the theorem. -/
theorem C6_search_soft_witness :
    search_similar ⟨false, true, .ok (), .ok [hitA]⟩ = .ok [] ∧
    search_similar ⟨true, false, .ok (), .ok [hitA]⟩ = .ok [] ∧
    search_similar ⟨true, true, .ok (), .error "transport down"⟩ = .ok [] :=
  ⟨(C6_search_soft ⟨false, true, .ok (), .ok [hitA]⟩).1 rfl,
   (C6_search_soft ⟨true, false, .ok (), .ok [hitA]⟩).2.1 rfl,
   (C6_search_soft ⟨true, true, .ok (), .error "transport down"⟩).2.2.1 "transport down" rfl rfl⟩

/-- C8: `create_collection` is idempotent — running it twice equals running
it once — and when the collection already exists (any schema dimension) the
call is a no-op, leaving the existing schema untouched even if the
requested dimension differs. -/
theorem C8_create_collection_idempotent (st : CollectionState) (dim d0 other : Nat) :
    create_collection (create_collection st dim) dim = create_collection st dim ∧
    (st.schemaDim = some d0 → create_collection st other = st) := by
  obtain ⟨c, sd⟩ := st
  constructor
  · cases c <;> cases sd <;> simp [create_collection]
  · intro hsd
    cases c <;> simp_all [create_collection]

/-- C8 witness: creating over an existing collection of dimension 1536 is a
no-op, even with a different requested dimension, and a fresh creation is
idempotent. -/
theorem C8_create_collection_idempotent_witness :
    create_collection (create_collection ⟨true, none⟩ 1536) 1536
      = create_collection ⟨true, none⟩ 1536 ∧
    create_collection ⟨true, some 1536⟩ 768 = ⟨true, some 1536⟩ :=
  ⟨(C8_create_collection_idempotent ⟨true, none⟩ 1536 0 0).1,
   (C8_create_collection_idempotent ⟨true, some 1536⟩ 0 1536 768).2 rfl⟩

/-- C9 (implicit): a hit with no `score` key is scored `doc.get("score", 0)
= 0`, so the filter (a total function — it cannot raise) always excludes
it, and removing all score-less hits changes neither the filtered sequence
nor the `sources` nor the context built from it. -/
theorem C9_missing_score_excluded (hits : List Hit) :
    (∀ h ∈ hits, h.score = none →
      h.score.getD 0 = 0 ∧ h ∉ filteredDocs hits) ∧
    filteredDocs hits = filteredDocs (hits.filter (fun h => h.score.isSome)) ∧
    sourcesOf (filteredDocs hits) = sourcesOf (filteredDocs (hits.filter (fun h => h.score.isSome))) ∧
    build_context (filteredDocs hits)
      = build_context (filteredDocs (hits.filter (fun h => h.score.isSome))) := by
  refine ⟨?hexc, ?heq, ?hseq, ?hceq⟩
  · intro h _ hs
    refine ⟨by rw [hs]; rfl, ?hnot⟩
    intro hmem
    have hp := (List.mem_filter.mp hmem).2
    rw [hs] at hp
    simp only [Option.getD_none, decide_eq_true_eq] at hp
    norm_num [SIMILARITY_THRESHOLD] at hp
  · rw [filteredDocs_filter_isSome]
  · rw [filteredDocs_filter_isSome]
  · rw [filteredDocs_filter_isSome]

/-- C9 witness: a score-less hit is excluded from the filter at a concrete
input while a scored hit survives. -/
theorem C9_missing_score_excluded_witness :
    Hit.mk (some "x") (some "X") none ∉
      filteredDocs [Hit.mk (some "x") (some "X") none, hitA] ∧
    filteredDocs [Hit.mk (some "x") (some "X") none, hitA]
      = filteredDocs ([Hit.mk (some "x") (some "X") none, hitA].filter (fun h => h.score.isSome)) :=
  ⟨((C9_missing_score_excluded [Hit.mk (some "x") (some "X") none, hitA]).1
      (Hit.mk (some "x") (some "X") none) (List.mem_cons_self _ _) rfl).2,
   (C9_missing_score_excluded [Hit.mk (some "x") (some "X") none, hitA]).2.1⟩

/-- A retained hit whose `id` is the empty string: the `sources` loop
skips it, refuting the claim that `sources` lists the id of every retained
hit. -/
def hitNoId : Hit := { id := some "", content := some "x", score := some (1 / 2) }

/-- C1 counterexample: a hit with score `0.5` (so it is retained by the
filter) but empty `id` does not appear in `sources`: the claim's
"`sources` is the ordered sequence of ids of the retained hits" would give
`[""]`, but the code gives `[]`. -/
theorem C1_counterexample :
    (process_message (fun _ => .ok []) (fun _ _ => .ok [hitNoId]) (fun _ _ => .ok "ans")
        "q" none).sources = [] ∧
    filteredDocs [hitNoId] = [hitNoId] ∧
    (filteredDocs [hitNoId]).map (fun h => h.id.getD "") = [""] ∧
    ([] : List String) ≠ [""] := by
  have hf : filteredDocs [hitNoId] = [hitNoId] := by
    norm_num [filteredDocs, hitNoId, SIMILARITY_THRESHOLD]
  have hev := process_message_success_eq (fun _ => .ok []) (fun _ _ => .ok [hitNoId])
    (fun _ _ => .ok "ans") "q" none [] [hitNoId] "ans" rfl rfl rfl
  refine ⟨?hsrc, hf, ?hmap, ?hne⟩
  · rw [hev]
    show sourcesOf (filteredDocs [hitNoId]) = []
    rw [hf]
    simp [sourcesOf, hitNoId]
  · rw [hf]
    simp [hitNoId]
  · simp

/-- C1 (amended): the relevance filter retains exactly the hits with
`score >= 0.3` (missing scores default to 0), preserving the store's
ordering; `sources` is the ordered sequence of the NON-EMPTY ids of the
retained hits (hits with missing or empty id are skipped), so every entry
of `sources` is the id of some hit scoring at least the threshold and no
hit with `score < 0.3` contributes; `documents_found` counts the filtered
hits and `total_documents_searched` the raw hits. -/
theorem C1_filter_and_sources (embed : String → Except String (List ℚ))
    (search : List ℚ → Nat → Except String (List Hit))
    (complete : String → String → Except String String)
    (message : String) (conversation_id : Option String)
    (qe : List ℚ) (hits : List Hit) (ans : String)
    (h1 : embed message = .ok qe) (h2 : search qe 3 = .ok hits)
    (h3 : complete message (build_context (filteredDocs hits)) = .ok ans) :
    (filteredDocs hits).Sublist hits ∧
    (∀ h ∈ filteredDocs hits, SIMILARITY_THRESHOLD ≤ h.score.getD 0) ∧
    (∀ h ∈ hits, SIMILARITY_THRESHOLD ≤ h.score.getD 0 → h ∈ filteredDocs hits) ∧
    (process_message embed search complete message conversation_id).sources
      = sourcesOf (filteredDocs hits) ∧
    (∀ s ∈ (process_message embed search complete message conversation_id).sources,
      s ≠ "" ∧ ∃ h ∈ hits, h.id = some s ∧ SIMILARITY_THRESHOLD ≤ h.score.getD 0) ∧
    (process_message embed search complete message conversation_id).search_metadata.documents_found
      = (filteredDocs hits).length ∧
    (process_message embed search complete
        message conversation_id).search_metadata.total_documents_searched
      = hits.length := by
  have hev := process_message_success_eq embed search complete message conversation_id
    qe hits ans h1 h2 h3
  have hall : ∀ h ∈ filteredDocs hits, SIMILARITY_THRESHOLD ≤ h.score.getD 0 := by
    intro h hm
    unfold filteredDocs at hm
    simpa using (List.mem_filter.mp hm).2
  refine ⟨List.filter_sublist _, hall, ?hmem, by rw [hev], ?hsrc, by rw [hev], by rw [hev]⟩
  · intro h hm hsc
    unfold filteredDocs
    exact List.mem_filter.mpr ⟨hm, decide_eq_true hsc⟩
  · intro s hs
    replace hs : s ∈ sourcesOf (filteredDocs hits) := by rw [hev] at hs; exact hs
    unfold sourcesOf at hs
    obtain ⟨hmap, hne⟩ := List.mem_filter.mp hs
    have hne' : s ≠ "" := by simpa using hne
    obtain ⟨h, hhf, hid⟩ := List.mem_map.mp hmap
    have hhits : h ∈ hits := by
      unfold filteredDocs at hhf
      exact List.mem_of_mem_filter hhf
    refine ⟨hne', h, hhits, ?hideq, hall h hhf⟩
    cases hcase : h.id with
    | none =>
      rw [hcase] at hid
      exact absurd hid.symm hne'
    | some v =>
      rw [hcase] at hid
      simp only [Option.getD_some] at hid
      rw [hid]

/-- C1 witness: the spec scenario, fed through the amended theorem, plus
the scenario's concrete output values. -/
theorem C1_filter_and_sources_witness :
    ((process_message okEmbed scenarioSearch okComplete "q" none).sources = ["a", "c"] ∧
      (process_message okEmbed scenarioSearch okComplete "q" none).search_metadata.documents_found
        = 2 ∧
      (process_message okEmbed scenarioSearch
          okComplete "q" none).search_metadata.total_documents_searched = 3) ∧
    ((filteredDocs [hitA, hitB, hitC]).Sublist [hitA, hitB, hitC] ∧
      (∀ h ∈ filteredDocs [hitA, hitB, hitC], SIMILARITY_THRESHOLD ≤ h.score.getD 0) ∧
      (∀ h ∈ [hitA, hitB, hitC], SIMILARITY_THRESHOLD ≤ h.score.getD 0 →
        h ∈ filteredDocs [hitA, hitB, hitC]) ∧
      (process_message okEmbed scenarioSearch okComplete "q" none).sources
        = sourcesOf (filteredDocs [hitA, hitB, hitC]) ∧
      (∀ s ∈ (process_message okEmbed scenarioSearch okComplete "q" none).sources,
        s ≠ "" ∧ ∃ h ∈ [hitA, hitB, hitC], h.id = some s ∧ SIMILARITY_THRESHOLD ≤ h.score.getD 0) ∧
      (process_message okEmbed scenarioSearch okComplete "q" none).search_metadata.documents_found
        = (filteredDocs [hitA, hitB, hitC]).length ∧
      (process_message okEmbed scenarioSearch
          okComplete "q" none).search_metadata.total_documents_searched
        = [hitA, hitB, hitC].length) := by
  have hev := process_message_success_eq okEmbed scenarioSearch okComplete "q" none
    [] [hitA, hitB, hitC] "ans" rfl rfl rfl
  refine ⟨⟨?hs1, ?hs2, ?hs3⟩,
    C1_filter_and_sources okEmbed scenarioSearch okComplete "q" none [] [hitA, hitB, hitC] "ans"
      rfl rfl rfl⟩
  · rw [hev]
    exact sourcesOf_scenario
  · rw [hev]
    show (filteredDocs [hitA, hitB, hitC]).length = 2
    rw [filteredDocs_scenario]
    rfl
  · rw [hev]
    rfl

/-- C4: `highest_score` and `avg_score` in the returned metadata are
computed over the filtered hits only: both are 0 when the filtered
sequence is empty, and otherwise `highest_score` is a filtered score that
bounds every filtered score, and `avg_score` times the filtered count is
the sum of the filtered scores (i.e. it is their arithmetic mean). -/
theorem C4_highest_and_avg (embed : String → Except String (List ℚ))
    (search : List ℚ → Nat → Except String (List Hit))
    (complete : String → String → Except String String)
    (message : String) (conversation_id : Option String)
    (qe : List ℚ) (hits : List Hit) (ans : String)
    (h1 : embed message = .ok qe) (h2 : search qe 3 = .ok hits)
    (h3 : complete message (build_context (filteredDocs hits)) = .ok ans) :
    (process_message embed search complete message conversation_id).search_metadata.highest_score
      = highestScore (filteredDocs hits) ∧
    (process_message embed search complete message conversation_id).search_metadata.avg_score
      = avgScore (filteredDocs hits) ∧
    (filteredDocs hits = [] →
      highestScore (filteredDocs hits) = 0 ∧ avgScore (filteredDocs hits) = 0) ∧
    (filteredDocs hits ≠ [] →
      highestScore (filteredDocs hits) ∈ (filteredDocs hits).map (fun h => h.score.getD 0) ∧
      (∀ s ∈ (filteredDocs hits).map (fun h => h.score.getD 0),
        s ≤ highestScore (filteredDocs hits)) ∧
      avgScore (filteredDocs hits) * ((filteredDocs hits).length : ℚ)
        = ((filteredDocs hits).map (fun h => h.score.getD 0)).sum) := by
  have hev := process_message_success_eq embed search complete message conversation_id
    qe hits ans h1 h2 h3
  refine ⟨by rw [hev], by rw [hev], ?hemp, ?hne⟩
  · intro hf
    constructor
    · simp [highestScore, hf]
    · simp [avgScore, hf]
  · intro hne
    cases hf : filteredDocs hits with
    | nil => exact absurd hf hne
    | cons x xs =>
      have hm : highestScore (x :: xs) = pyMax ((x :: xs).map (fun h => h.score.getD 0)) := by
        simp [highestScore]
      have ha : avgScore (x :: xs)
          = ((x :: xs).map (fun h => h.score.getD 0)).sum / (((x :: xs).length : ℕ) : ℚ) := by
        simp [avgScore]
      refine ⟨?hmem, ?hbd, ?havg⟩
      · rw [hm, List.map_cons]
        exact pyMax_mem _ _
      · intro s hsmem
        rw [hm, List.map_cons]
        rw [List.map_cons] at hsmem
        exact le_pyMax _ _ s hsmem
      · rw [ha]
        have hlen : (((x :: xs).length : ℕ) : ℚ) ≠ 0 := by
          rw [List.length_cons]
          exact_mod_cast Nat.succ_ne_zero xs.length
        exact div_mul_cancel₀ _ hlen

/-- C4 witness: the spec scenario — the metadata carries `highest_score
= 0.5` and `avg_score = 0.425`, the mean over the two retained scores only
— fed through the theorem. -/
theorem C4_highest_and_avg_witness :
    ((process_message okEmbed scenarioSearch okComplete "q" none).search_metadata.highest_score
        = 1 / 2 ∧
      (process_message okEmbed scenarioSearch okComplete "q" none).search_metadata.avg_score
        = 17 / 40) ∧
    ((process_message okEmbed scenarioSearch okComplete "q" none).search_metadata.highest_score
        = highestScore (filteredDocs [hitA, hitB, hitC]) ∧
      (process_message okEmbed scenarioSearch okComplete "q" none).search_metadata.avg_score
        = avgScore (filteredDocs [hitA, hitB, hitC]) ∧
      (filteredDocs [hitA, hitB, hitC] = [] →
        highestScore (filteredDocs [hitA, hitB, hitC]) = 0 ∧
        avgScore (filteredDocs [hitA, hitB, hitC]) = 0) ∧
      (filteredDocs [hitA, hitB, hitC] ≠ [] →
        highestScore (filteredDocs [hitA, hitB, hitC])
          ∈ (filteredDocs [hitA, hitB, hitC]).map (fun h => h.score.getD 0) ∧
        (∀ s ∈ (filteredDocs [hitA, hitB, hitC]).map (fun h => h.score.getD 0),
          s ≤ highestScore (filteredDocs [hitA, hitB, hitC])) ∧
        avgScore (filteredDocs [hitA, hitB, hitC]) * ((filteredDocs [hitA, hitB, hitC]).length : ℚ)
          = ((filteredDocs [hitA, hitB, hitC]).map (fun h => h.score.getD 0)).sum)) := by
  have hev := process_message_success_eq okEmbed scenarioSearch okComplete "q" none
    [] [hitA, hitB, hitC] "ans" rfl rfl rfl
  refine ⟨⟨?hh, ?hav⟩,
    C4_highest_and_avg okEmbed scenarioSearch okComplete "q" none [] [hitA, hitB, hitC] "ans"
      rfl rfl rfl⟩
  · rw [hev]
    exact highestScore_scenario
  · rw [hev]
    exact avgScore_scenario

/-- A plain document with content and no metadata, used in witnesses. -/
def sampleDoc : Doc := { id := some "d1", content := some "hello", metadata := none, embedding := none }

/-- A document with content and a truthy metadata dict. -/
def metaDoc : Doc :=
  { id := some "d2", content := some "hello", metadata := some (.obj [("k", "v")]), embedding := none }

/-- An embedding provider that always raises. -/
def failEmbed : String → Except String (List ℚ) := fun _ => .error "embed down"

/-- A concrete metadata serializer standing in for `json.dumps`. -/
def mdumps : MetaValue → String := fun _ => "serialized"

/-- When the embedding provider cannot fail, one loop iteration is exactly
the pure mutation `mutateDoc`. -/
theorem embedDoc_total (f : String → List ℚ) (dumps : MetaValue → String) (doc : Doc) :
    embedDoc (fun s => .ok (f s)) dumps doc = .ok (mutateDoc f dumps doc) := by
  unfold embedDoc mutateDoc
  by_cases hc : doc.content.getD "" = ""
  · rw [if_pos hc, if_pos hc]
  · rw [if_neg hc, if_neg hc]
    cases hmeta : doc.metadata with
    | none => simp [hmeta]
    | some m =>
      by_cases ht : m.truthy
      · simp [hmeta, ht]
      · simp [hmeta, ht]

/-- When the embedding provider cannot fail, the whole loop maps
`mutateDoc` over the documents and reports no error. -/
theorem embedAll_total (f : String → List ℚ) (dumps : MetaValue → String) (docs : List Doc) :
    embedAll (fun s => .ok (f s)) dumps docs = (none, docs.map (mutateDoc f dumps)) := by
  induction docs with
  | nil => rfl
  | cons d ds ih =>
    simp [embedAll, embedDoc_total, ih]

/-- C5 counterexample: with the store not connected, `insert_documents`
logs a warning and returns normally without inserting, so
`ingest_documents` returns `True` although nothing was inserted — the
claim "ingestion never reports success when the documents were not
actually inserted into the store" fails. -/
theorem C5_counterexample :
    (ingest_documents (fun _ => .ok [1]) mdumps false (.ok ()) (.ok ()) [sampleDoc]).success
      = true ∧
    (ingest_documents (fun _ => .ok [1]) mdumps false (.ok ()) (.ok ()) [sampleDoc]).inserted
      = false :=
  ⟨rfl, rfl⟩

/-- C5 (amended): exceptions are fail-hard — a failing embedding call, or
the store raising on load or insert while connected, makes
`ingest_documents` return `False` with nothing inserted — and a `True`
result means the documents were inserted exactly when the store was
connected; but when the store is NOT connected, the insert is a silent
no-op and the call still reports success. -/
theorem C5_ingest_fail_hard (embed : String → Except String (List ℚ)) (dumps : MetaValue → String)
    (connected : Bool) (loadResult storeInsert : Except String Unit) (documents : List Doc) :
    ((embedAll embed dumps documents).1.isSome = true →
      (ingest_documents embed dumps connected loadResult storeInsert documents).success = false ∧
      (ingest_documents embed dumps connected loadResult storeInsert documents).inserted = false) ∧
    (connected = true → ((∃ e, loadResult = .error e) ∨ (∃ e, storeInsert = .error e)) →
      (ingest_documents embed dumps connected loadResult storeInsert documents).success = false ∧
      (ingest_documents embed dumps connected loadResult storeInsert documents).inserted = false) ∧
    ((ingest_documents embed dumps connected loadResult storeInsert documents).success = true →
      (ingest_documents embed dumps connected loadResult storeInsert documents).inserted
        = connected) := by
  rcases hEA : embedAll embed dumps documents with ⟨_ | e, docs1⟩
  case mk.none =>
    cases connected with
    | false =>
      refine ⟨?_, ?_, ?_⟩
      · intro hsome
        simp at hsome
      · intro hcon
        cases hcon
      · intro _
        simp [ingest_documents, hEA, insert_documents]
    | true =>
      cases loadResult with
      | error le =>
        refine ⟨?_, ?_, ?_⟩
        · intro hsome
          simp at hsome
        · intro _ _
          exact ⟨by simp [ingest_documents, hEA, insert_documents],
            by simp [ingest_documents, hEA, insert_documents]⟩
        · intro hs
          exfalso
          simp [ingest_documents, hEA, insert_documents] at hs
      | ok lu =>
        cases storeInsert with
        | error ie =>
          refine ⟨?_, ?_, ?_⟩
          · intro hsome
            simp at hsome
          · intro _ _
            exact ⟨by simp [ingest_documents, hEA, insert_documents],
              by simp [ingest_documents, hEA, insert_documents]⟩
          · intro hs
            exfalso
            simp [ingest_documents, hEA, insert_documents] at hs
        | ok iu =>
          refine ⟨?_, ?_, ?_⟩
          · intro hsome
            simp at hsome
          · intro _ hor
            exfalso
            rcases hor with ⟨e1, he1⟩ | ⟨e1, he1⟩ <;> cases he1
          · intro _
            simp [ingest_documents, hEA, insert_documents]
  case mk.some =>
    refine ⟨?_, ?_, ?_⟩
    · intro _
      exact ⟨by simp [ingest_documents, hEA], by simp [ingest_documents, hEA]⟩
    · intro _ _
      exact ⟨by simp [ingest_documents, hEA], by simp [ingest_documents, hEA]⟩
    · intro hs
      exfalso
      simp [ingest_documents, hEA] at hs

/-- C5 witness: a failing embed aborts with `False`; a store rejection
while connected yields `False`; and an all-clear connected run reports
success with the documents actually inserted. -/
theorem C5_ingest_fail_hard_witness :
    ((ingest_documents failEmbed mdumps true (.ok ()) (.ok ()) [sampleDoc]).success = false ∧
      (ingest_documents failEmbed mdumps true (.ok ()) (.ok ()) [sampleDoc]).inserted = false) ∧
    ((ingest_documents (fun _ => .ok [1]) mdumps true (.ok ()) (.error "insert rejected")
        [sampleDoc]).success = false ∧
      (ingest_documents (fun _ => .ok [1]) mdumps true (.ok ()) (.error "insert rejected")
        [sampleDoc]).inserted = false) ∧
    (ingest_documents (fun _ => .ok [1]) mdumps true (.ok ()) (.ok ()) [sampleDoc]).inserted
      = true :=
  ⟨(C5_ingest_fail_hard failEmbed mdumps true (.ok ()) (.ok ()) [sampleDoc]).1 rfl,
   (C5_ingest_fail_hard (fun _ => .ok [1]) mdumps true (.ok ()) (.error "insert rejected")
      [sampleDoc]).2.1 rfl (Or.inr ⟨"insert rejected", rfl⟩),
   (C5_ingest_fail_hard (fun _ => .ok [1]) mdumps true (.ok ()) (.ok ()) [sampleDoc]).2.2 rfl⟩

/-- C10 counterexample: when the embedding call raises on the first
document, `ingest_documents` reports failure and the caller's documents
are completely unchanged — no `embedding` key was added and the truthy
metadata was not serialized — refuting "for every document with non-empty
content it adds an embedding key ... even when the call reports
failure". -/
theorem C10_counterexample :
    (ingest_documents failEmbed mdumps true (.ok ()) (.ok ()) [metaDoc]).docs = [metaDoc] ∧
    metaDoc.content.getD "" ≠ "" ∧
    metaDoc.metadata = some (.obj [("k", "v")]) ∧
    metaDoc.embedding = none ∧
    (ingest_documents failEmbed mdumps true (.ok ()) (.ok ()) [metaDoc]).success = false := by
  refine ⟨rfl, ?hcont, rfl, rfl, rfl⟩
  simp [metaDoc]

/-- C10 (amended): when every embedding call succeeds, `ingest_documents`
mutates the caller's list in place to `map mutateDoc`: every document with
non-empty content gains an `embedding` key holding its embedding, and a
present truthy metadata mapping is replaced by its serialized string form;
these mutations persist even when the connected store rejects the insert
and the call reports failure.  (When an embedding call fails mid-batch,
only the documents before the failing one are mutated.) -/
theorem C10_ingest_mutates (f : String → List ℚ) (dumps : MetaValue → String)
    (connected : Bool) (loadResult storeInsert : Except String Unit) (documents : List Doc) :
    (ingest_documents (fun s => .ok (f s)) dumps connected loadResult storeInsert documents).docs
      = documents.map (mutateDoc f dumps) ∧
    (∀ doc : Doc, doc.content.getD "" ≠ "" →
      (mutateDoc f dumps doc).embedding = some (f (doc.content.getD ""))) ∧
    (∀ doc : Doc, ∀ m, doc.content.getD "" ≠ "" → doc.metadata = some m → m.truthy = true →
      (mutateDoc f dumps doc).metadata = some (.str (dumps m))) ∧
    (∀ e, storeInsert = .error e → connected = true →
      (ingest_documents (fun s => .ok (f s)) dumps connected loadResult storeInsert
        documents).success = false) := by
  refine ⟨?hdocs, ?hemb, ?hmeta, ?hfail⟩
  · rw [ingest_documents, embedAll_total]
    rcases insert_documents connected loadResult storeInsert with e | b <;> rfl
  · intro doc hc
    unfold mutateDoc
    rw [if_neg hc]
    cases hmeta : doc.metadata with
    | none => simp [hmeta]
    | some m =>
      by_cases ht : m.truthy
      · simp [hmeta, ht]
      · simp [hmeta, ht]
  · intro doc m hc hm ht
    unfold mutateDoc
    rw [if_neg hc]
    simp [hm, ht]
  · intro e he hc
    subst hc
    rw [ingest_documents, embedAll_total, he]
    cases loadResult <;> rfl

/-- C10 witness: with a connected store that rejects the insert, the call
reports failure yet the caller's document now carries the embedding and
the serialized metadata string. -/
theorem C10_ingest_mutates_witness :
    (ingest_documents (fun _ => .ok [1]) mdumps true (.ok ()) (.error "insert rejected")
        [metaDoc]).docs
      = [{ id := some "d2", content := some "hello", metadata := some (.str "serialized"),
           embedding := some [1] }] ∧
    (ingest_documents (fun _ => .ok [1]) mdumps true (.ok ()) (.error "insert rejected")
        [metaDoc]).success = false := by
  refine ⟨?hd,
    (C10_ingest_mutates (fun _ => [1]) mdumps true (.ok ()) (.error "insert rejected")
      [metaDoc]).2.2.2 "insert rejected" rfl rfl⟩
  have h := (C10_ingest_mutates (fun _ => [1]) mdumps true (.ok ()) (.error "insert rejected")
    [metaDoc]).1
  rw [h]
  rfl

/-- Hits realizable as a filtered sequence (all scores clear the
threshold) whose middle hit has empty content. -/
def hitFirst : Hit := { id := some "a1", content := some "first", score := some (1 / 2) }

/-- The middle hit: retained by the filter but with empty content. -/
def hitBlank : Hit := { id := some "b2", content := some "", score := some (2 / 5) }

/-- The third hit with non-empty content. -/
def hitThird : Hit := { id := some "c3", content := some "third", score := some (2 / 5) }

/-- C7 counterexample: all three hits clear the threshold, so they form a
filtered sequence, but `_build_context` skips the empty content of the
middle hit: the code yields "first\n\nthird" while the claim's
"concatenation of the content field of each filtered hit joined by a blank
line" yields "first\n\n\n\nthird". -/
theorem C7_counterexample :
    filteredDocs [hitFirst, hitBlank, hitThird] = [hitFirst, hitBlank, hitThird] ∧
    build_context [hitFirst, hitBlank, hitThird] = "first\n\nthird" ∧
    contextOfSpec [hitFirst, hitBlank, hitThird] = "first\n\n\n\nthird" ∧
    build_context [hitFirst, hitBlank, hitThird]
      ≠ contextOfSpec [hitFirst, hitBlank, hitThird] := by
  have hb : build_context [hitFirst, hitBlank, hitThird] = "first\n\nthird" := by
    simp [build_context, hitFirst, hitBlank, hitThird]
    decide
  have hc : contextOfSpec [hitFirst, hitBlank, hitThird] = "first\n\n\n\nthird" := by
    simp [contextOfSpec, hitFirst, hitBlank, hitThird]
    decide
  refine ⟨?hf, hb, hc, ?hne⟩
  · norm_num [filteredDocs, hitFirst, hitBlank, hitThird, SIMILARITY_THRESHOLD]
  · rw [hb, hc]
    decide

/-- C7 (amended): the context handed to the completion provider (returned
here by an echoing provider) is `build_context` of the filtered hits: the
`"\n\n"`-join of their NON-EMPTY contents in order; when every filtered
hit has non-empty content this coincides with the claim's join of all
content fields, and it is the empty string when the filtered sequence is
empty. -/
theorem C7_context_from_filtered (embed : String → Except String (List ℚ))
    (search : List ℚ → Nat → Except String (List Hit))
    (message : String) (conversation_id : Option String)
    (qe : List ℚ) (hits : List Hit)
    (h1 : embed message = .ok qe) (h2 : search qe 3 = .ok hits) :
    (process_message embed search (fun _ c => .ok c) message conversation_id).response
      = build_context (filteredDocs hits) ∧
    ((∀ h ∈ filteredDocs hits, h.content.getD "" ≠ "") →
      build_context (filteredDocs hits) = contextOfSpec (filteredDocs hits)) ∧
    (filteredDocs hits = [] → build_context (filteredDocs hits) = "") := by
  refine ⟨?hresp, ?hagree, ?hemp⟩
  · rw [process_message_success_eq embed search (fun _ c => .ok c) message conversation_id
      qe hits (build_context (filteredDocs hits)) h1 h2 rfl]
  · intro hall
    unfold build_context contextOfSpec
    by_cases hfe : filteredDocs hits = []
    · rw [if_pos hfe, hfe]
      rfl
    · rw [if_neg hfe]
      congr 1
      apply List.filter_eq_self.mpr
      intro c hcmem
      obtain ⟨h, hh, hceq⟩ := List.mem_map.mp hcmem
      rw [← hceq]
      exact decide_eq_true (hall h hh)
  · intro hf
    rw [hf]
    rfl

/-- C7 witness: the scenario hits through an echoing completion provider —
the provider receives exactly "Alpha\n\nGamma" — plus the agreement and
empty cases of the theorem discharged concretely. -/
theorem C7_context_from_filtered_witness :
    (process_message okEmbed scenarioSearch (fun _ c => .ok c) "q" none).response
      = build_context (filteredDocs [hitA, hitB, hitC]) ∧
    build_context (filteredDocs [hitA, hitB, hitC]) = "Alpha\n\nGamma" ∧
    ((∀ h ∈ filteredDocs [hitA, hitB, hitC], h.content.getD "" ≠ "") →
      build_context (filteredDocs [hitA, hitB, hitC])
        = contextOfSpec (filteredDocs [hitA, hitB, hitC])) ∧
    build_context (filteredDocs []) = "" := by
  have happ := C7_context_from_filtered okEmbed scenarioSearch "q" none [] [hitA, hitB, hitC]
    rfl rfl
  have hemp := (C7_context_from_filtered okEmbed (fun _ _ => .ok []) "q" none [] [] rfl rfl).2.2 rfl
  exact ⟨happ.1, build_context_scenario, happ.2.1, hemp⟩

end RagPipeline
